import Mathlib

/-!
Shallow embedding of the ARM7TDMI CPU core of this repository
(src/ARM7TDMI.cpp together with the declarations in src/src/ARM7TDMI.h).

Machine integers are modelled as `Nat` with explicit `% 2^32` where 32-bit
wraparound matters.  One-bit status-register bitfields are modelled as `Bool`
(assignment of a wider integer to a 1-bit field keeps the low bit, written
`% 2 == 1`), and the `uint8_t` helper flag members (`overflowBit`, `carryBit`,
`zeroBit`, `signBit`) as `Nat` with `% 256` where a store could truncate.
C++ shifts whose right operand is at least the bit width of the (promoted)
left operand are undefined behaviour, so such shifts are modelled as
`Option Nat` returning `none`; a failing `assert` is likewise modelled as
`none`.
-/

namespace ARM7TDMI

/-- Physical storage cells of the register file.  `shared i` is the cell the
plain `registers` array points at (`r0`–`r15` of the header); the other
constructors are the banked shadow cells (`r8_fiq`–`r14_fiq`, `r13_irq`,
`r14_irq`, `r13_svc`, `r14_svc`, `r13_abt`, `r14_abt`, `r13_und`,
`r14_und`). -/
inductive Cell where
  | shared (i : Nat)
  | fiqB (i : Nat)
  | irqB (i : Nat)
  | svcB (i : Nat)
  | abtB (i : Nat)
  | undB (i : Nat)
deriving DecidableEq

/-- Embedding of `ARM7TDMI::ProgramStatusRegister` (bitfield struct of the
header).  The 5-bit `Mode` field and the 19-bit `Reserved` field are `Nat`,
the 1-bit fields are `Bool`. -/
structure ProgramStatusRegister where
  Mode : Nat
  T : Bool
  F : Bool
  I : Bool
  Reserved : Nat
  Q : Bool
  V : Bool
  C : Bool
  Z : Bool
  N : Bool
deriving DecidableEq

/-- Embedding of `ARM7TDMI::Cycles` (four `uint8_t` bitfields). -/
structure Cycles where
  nonSequentialCycles : Nat
  sequentialCycles : Nat
  internalCycles : Nat
  waitState : Nat
deriving DecidableEq

/-- Embedding of `ARM7TDMI::AluShiftResult`: the shifted operand and the
carry-out (`uint8_t`). -/
structure AluShiftResult where
  op2 : Nat
  carry : Nat
deriving DecidableEq

/-- The mutable state of an `ARM7TDMI` object: the register storage cells,
the current status register, the five saved status registers, and the four
`uint8_t` ALU flag members. -/
structure State where
  cells : Cell → Nat
  cpsr : ProgramStatusRegister
  SPSR_fiq : ProgramStatusRegister
  SPSR_svc : ProgramStatusRegister
  SPSR_abt : ProgramStatusRegister
  SPSR_irq : ProgramStatusRegister
  SPSR_und : ProgramStatusRegister
  overflowBit : Nat
  carryBit : Nat
  zeroBit : Nat
  signBit : Nat

/-- Mode numbers of the `Mode` enum in the header. -/
def USER : Nat := 16
def FIQ : Nat := 17
def IRQ : Nat := 18
def SUPERVISOR : Nat := 19
def ABORT : Nat := 23
def UNDEFINED : Nat := 27
def SYSTEM : Nat := 31

def PC_REGISTER : Nat := 15
def BOOT_LOCATION : Nat := 0

/-- Modelled from the spec: the `fiqRegisters` pointer array used by
`getRegister`/`setRegister` is initialized outside the files under `src/`;
per the spec (sections 2 and 3) FIQ mode banks logical registers 8–14 to
its shadow cells and shares all other indices with the user bank. -/
def fiqRegisters (i : Nat) : Cell :=
  if 8 ≤ i ∧ i ≤ 14 then Cell.fiqB i else Cell.shared i

/-- Modelled from the spec: the `irqRegisters` pointer array; IRQ mode banks
logical registers 13–14, sharing the rest with the user bank. -/
def irqRegisters (i : Nat) : Cell :=
  if 13 ≤ i ∧ i ≤ 14 then Cell.irqB i else Cell.shared i

/-- Modelled from the spec: the `svcRegisters` pointer array; Supervisor mode
banks logical registers 13–14. -/
def svcRegisters (i : Nat) : Cell :=
  if 13 ≤ i ∧ i ≤ 14 then Cell.svcB i else Cell.shared i

/-- Modelled from the spec: the `abtRegisters` pointer array; Abort mode
banks logical registers 13–14. -/
def abtRegisters (i : Nat) : Cell :=
  if 13 ≤ i ∧ i ≤ 14 then Cell.abtB i else Cell.shared i

/-- Modelled from the spec: the `undRegisters` pointer array; Undefined mode
banks logical registers 13–14. -/
def undRegisters (i : Nat) : Cell :=
  if 13 ≤ i ∧ i ≤ 14 then Cell.undB i else Cell.shared i

/-- Embedding of `ARM7TDMI::getRegister` (src/ARM7TDMI.cpp lines 439–455):
mode-aware read through the per-mode pointer array. -/
def getRegister (s : State) (index : Nat) : Nat :=
  if s.cpsr.Mode = USER then s.cells (Cell.shared index)
  else if s.cpsr.Mode = FIQ then s.cells (fiqRegisters index)
  else if s.cpsr.Mode = IRQ then s.cells (irqRegisters index)
  else if s.cpsr.Mode = SUPERVISOR then s.cells (svcRegisters index)
  else if s.cpsr.Mode = ABORT then s.cells (abtRegisters index)
  else if s.cpsr.Mode = UNDEFINED then s.cells (undRegisters index)
  else s.cells (Cell.shared index)

/-- The cell written by `setRegister` for a given mode and index. -/
def writeCell (mode index : Nat) : Cell :=
  if mode = USER then Cell.shared index
  else if mode = FIQ then fiqRegisters index
  else if mode = IRQ then irqRegisters index
  else if mode = SUPERVISOR then svcRegisters index
  else if mode = ABORT then abtRegisters index
  else if mode = UNDEFINED then undRegisters index
  else Cell.shared index

/-- Embedding of `ARM7TDMI::setRegister` (src/ARM7TDMI.cpp lines 458–474):
mode-aware write through the per-mode pointer array. -/
def setRegister (s : State) (index value : Nat) : State :=
  { s with cells := fun c => if c = writeCell s.cpsr.Mode index then value else s.cells c }

/-- Embedding of `ARM7TDMI::getModeSpsr` (src/ARM7TDMI.cpp lines 420–436). -/
def getModeSpsr (s : State) : ProgramStatusRegister :=
  if s.cpsr.Mode = USER then s.cpsr
  else if s.cpsr.Mode = FIQ then s.SPSR_fiq
  else if s.cpsr.Mode = IRQ then s.SPSR_irq
  else if s.cpsr.Mode = SUPERVISOR then s.SPSR_svc
  else if s.cpsr.Mode = ABORT then s.SPSR_abt
  else if s.cpsr.Mode = UNDEFINED then s.SPSR_und
  else s.cpsr

/-- An all-zero status register, as produced by the header's
member initializers `{0, 0, 0, 0, 0, 0, 0, 0, 0, 0}`. -/
def zeroPsr : ProgramStatusRegister :=
  ⟨0, false, false, false, 0, false, false, false, false, false⟩

/-- Embedding of the `ARM7TDMI::ARM7TDMI` constructor (src/ARM7TDMI.cpp
lines 8–12) on top of the header's member initializers: every register cell
starts at 0 except `r8_fiq = 69`; the constructor then sets
`cpsr.Mode = SUPERVISOR`, `cpsr.T = 0` and stores `BOOT_LOCATION` into the
program counter through `setRegister`. -/
def initState : State :=
  let s0 : State :=
    { cells := fun c => if c = Cell.fiqB 8 then 69 else 0
      cpsr := zeroPsr
      SPSR_fiq := zeroPsr
      SPSR_svc := zeroPsr
      SPSR_abt := zeroPsr
      SPSR_irq := zeroPsr
      SPSR_und := zeroPsr
      overflowBit := 0
      carryBit := 0
      zeroBit := 0
      signBit := 0 }
  let s1 : State := { s0 with cpsr := { s0.cpsr with Mode := SUPERVISOR, T := false } }
  setRegister s1 PC_REGISTER BOOT_LOCATION

/-- Modelled from the spec: `switchToMode` is declared in the header but its
definition is not under `src/`; per the spec (section 4.1) a mode switch
selects the bank of the new mode, which in this implementation means setting
the mode field that `getRegister`/`setRegister` dispatch on. -/
def switchToMode (s : State) (mode : Nat) : State :=
  { s with cpsr := { s.cpsr with Mode := mode } }

/-- 32-bit wraparound addition, the result of `uint32_t` `+`. -/
def add32 (a b : Nat) : Nat := (a + b) % 2 ^ 32

/-- 32-bit wraparound subtraction, the result of `uint32_t` `-`. -/
def sub32 (a b : Nat) : Nat := (a + (2 ^ 32 - b)) % 2 ^ 32

/-- 32-bit bitwise complement, the result of `uint32_t` `~`. -/
def not32 (a : Nat) : Nat := a ^^^ 0xFFFFFFFF

/-- Two's-complement reading of a 32-bit value (used to state what signed
overflow means; the C code itself only manipulates the unsigned bits). -/
def toSigned (x : Nat) : Int := if x < 2 ^ 31 then (x : Int) else (x : Int) - 2 ^ 32

/-- Embedding of `ARM7TDMI::aluSetsZeroBit` (src/ARM7TDMI.cpp line 480). -/
def aluSetsZeroBit (value : Nat) : Bool := value == 0

/-- Embedding of `ARM7TDMI::aluSetsSignBit` (line 484): `value >> 31`
converted to `bool`. -/
def aluSetsSignBit (value : Nat) : Bool := value >>> 31 != 0

/-- Embedding of `ARM7TDMI::aluSubtractSetsCarryBit` (line 488):
`!(rnValue < op2)`. -/
def aluSubtractSetsCarryBit (rnValue op2 : Nat) : Bool := !(decide (rnValue < op2))

/-- Embedding of `ARM7TDMI::aluSubtractSetsOverflowBit` (lines 492–496). -/
def aluSubtractSetsOverflowBit (rnValue op2 result : Nat) : Bool :=
  ((rnValue &&& 0x80000000) == 0 && (op2 &&& 0x80000000) != 0 && (result &&& 0x80000000) != 0) ||
    ((rnValue &&& 0x80000000) != 0 && (op2 &&& 0x80000000) == 0 && (result &&& 0x80000000) == 0)

/-- Embedding of `ARM7TDMI::aluAddSetsCarryBit` (line 498):
`(0xFFFFFFFF - op2) < rnValue`. -/
def aluAddSetsCarryBit (rnValue op2 : Nat) : Bool := decide (0xFFFFFFFF - op2 < rnValue)

/-- Embedding of `ARM7TDMI::aluAddSetsOverflowBit` (lines 502–506). -/
def aluAddSetsOverflowBit (rnValue op2 result : Nat) : Bool :=
  ((rnValue &&& 0x80000000) != 0 && (op2 &&& 0x80000000) != 0 && (result &&& 0x80000000) == 0) ||
    ((rnValue &&& 0x80000000) == 0 && (op2 &&& 0x80000000) == 0 && (result &&& 0x80000000) != 0)

/-- Embedding of `ARM7TDMI::aluAddWithCarrySetsCarryBit` (line 508):
`result >> 32` on the `uint64_t` intermediate, converted to `bool`. -/
def aluAddWithCarrySetsCarryBit (result : Nat) : Bool := result >>> 32 != 0

/-- Embedding of `ARM7TDMI::aluAddWithCarrySetsOverflowBit` (lines 512–518).
`rnValue + op2` inside it is again `uint32_t` arithmetic, and
`cpsr.C & 0x80000000` masks the 1-bit carry flag (hence is always 0). -/
def aluAddWithCarrySetsOverflowBit (s : State) (rnValue op2 result : Nat) : Bool :=
  ((rnValue &&& 0x80000000) != 0 && (op2 &&& 0x80000000) != 0 &&
      (add32 rnValue op2 &&& 0x80000000) == 0) ||
    ((rnValue &&& 0x80000000) == 0 && (op2 &&& 0x80000000) == 0 &&
      (add32 rnValue op2 &&& 0x80000000) != 0) ||
    ((add32 rnValue op2 &&& 0x80000000) == 0 && (s.cpsr.C.toNat &&& 0x80000000) == 0 &&
      (result &&& 0x80000000) != 0)

/-- Embedding of `ARM7TDMI::aluSubWithCarrySetsCarryBit` (line 520):
`!(result >> 32)` on the `uint64_t` intermediate. -/
def aluSubWithCarrySetsCarryBit (result : Nat) : Bool := !(result >>> 32 != 0)

/-- Embedding of `ARM7TDMI::aluSubWithCarrySetsOverflowBit` (lines 524–530);
`rnValue + (~op2)` inside it is `uint32_t` arithmetic. -/
def aluSubWithCarrySetsOverflowBit (s : State) (rnValue op2 result : Nat) : Bool :=
  ((rnValue &&& 0x80000000) != 0 && (not32 op2 &&& 0x80000000) != 0 &&
      (add32 rnValue (not32 op2) &&& 0x80000000) == 0) ||
    ((rnValue &&& 0x80000000) == 0 && (not32 op2 &&& 0x80000000) == 0 &&
      (add32 rnValue (not32 op2) &&& 0x80000000) != 0) ||
    ((add32 rnValue (not32 op2) &&& 0x80000000) == 0 &&
      (s.cpsr.C.toNat &&& 0x80000000) == 0 && (result &&& 0x80000000) != 0)

/-- A `uint32_t` right shift as the C++ standard defines it: undefined
behaviour (`none`) when the shift count is not below 32. -/
def shiftRightUB (x n : Nat) : Option Nat :=
  if n < 32 then some (x >>> n) else none

/-- Embedding of `ARM7TDMI::aluShiftLsl` (line 390): `value << shift`,
undefined behaviour for counts of 32 or more. -/
def aluShiftLsl (value shift : Nat) : Option Nat :=
  if shift < 32 then some ((value <<< shift) % 2 ^ 32) else none

/-- Embedding of `ARM7TDMI::aluShiftLsr` (line 395): `value >> shift`,
undefined behaviour for counts of 32 or more. -/
def aluShiftLsr (value shift : Nat) : Option Nat :=
  if shift < 32 then some (value >>> shift) else none

/-- Embedding of `ARM7TDMI::aluShiftAsr` (line 400): arithmetic right shift
of the value reinterpreted as `int32_t` (the comment in the source assumes
the compiler shifts signed integers arithmetically), cast back to
`uint32_t`; undefined behaviour for counts of 32 or more. -/
def aluShiftAsr (value shift : Nat) : Option Nat :=
  if shift < 32 then some (((toSigned value >>> shift) % 2 ^ 32).toNat) else none

/-- Embedding of `ARM7TDMI::aluShiftRor` (line 407):
`(value >> shift) | (value << (-shift & 31U))`, with the `assert (shift < 32U)`
modelled as `none` on failure. -/
def aluShiftRor (value shift : Nat) : Option Nat :=
  if shift < 32 then
    some ((value >>> shift ||| (value <<< ((32 - shift) % 32)) % 2 ^ 32))
  else none

/-- Embedding of `ARM7TDMI::aluShift` (src/ARM7TDMI.cpp lines 261–386).
The source mutates only the `carryBit` member; the returned
`AluShiftResult` carries both the shifted operand and that new `carryBit`
value, so the caller rebuilds the post-call state from the result.
`none` models a failed `assert` or an undefined-behaviour shift.  Note the
C operator precedence on line 300: `instruction & 0x00000F80 >> 7U` parses
as `instruction & (0x00000F80 >> 7U)`, i.e. `instruction & 0x1F`. -/
def aluShift (s : State) (instruction : Nat) (i r : Bool) : Option AluShiftResult :=
  if i then
    -- shifted immediate value as 2nd operand
    let rm := instruction &&& 0x000000FF
    let is := (instruction &&& 0x00000F00) >>> 7
    (aluShiftRor rm (is % 32)).bind fun op2 =>
      let carry := if is > 0 then (rm >>> (is - 1)) % 256 else s.carryBit
      some ⟨op2, carry⟩
  else
    -- shifted register value as 2nd operand
    let shiftType := (instruction &&& 0x00000060) >>> 5
    let rmIndex := instruction &&& 0x0000000F
    let rm0 := getRegister s rmIndex
    let rm :=
      if rmIndex ≠ PC_REGISTER then rm0
      else if ¬i ∧ r then (rm0 + 12) % 2 ^ 32
      else (rm0 + 8) % 2 ^ 32
    let amount : Option Nat :=
      if r then
        let rsIndex := (instruction &&& 0x00000F00) >>> 8
        if rsIndex = 15 then none -- assert(rsIndex != 15)
        else some (getRegister s rsIndex &&& 0x000000FF)
      else some (instruction &&& (0x00000F80 >>> 7))
    amount.bind fun shiftAmount =>
      let immOpIsZero := if r then false else shiftAmount == 0
      if shiftType = 0 then -- Logical Shift Left
        if ¬immOpIsZero then
          (aluShiftLsl rm shiftAmount).bind fun op2 =>
            (shiftRightUB rm ((32 + 2 ^ 32 - shiftAmount) % 2 ^ 32)).bind fun c =>
              some ⟨op2, c &&& 1⟩
        else some ⟨rm, s.cpsr.C.toNat⟩
      else if shiftType = 1 then -- Logical Shift Right
        if ¬immOpIsZero then
          (aluShiftLsr rm shiftAmount).bind fun op2 =>
            (shiftRightUB rm ((shiftAmount + 2 ^ 32 - 1) % 2 ^ 32)).bind fun c =>
              some ⟨op2, c &&& 1⟩
        else some ⟨0, rm >>> 31⟩
      else if shiftType = 2 then -- Arithmetic Shift Right
        if ¬immOpIsZero then
          (aluShiftAsr rm shiftAmount).bind fun op2 => some ⟨op2, rm >>> 31⟩
        else
          (aluShiftAsr rm 32).bind fun op2 => some ⟨op2, rm >>> 31⟩
      else -- Rotating Shift
        if ¬immOpIsZero then
          (aluShiftRor rm (shiftAmount % 32)).bind fun op2 =>
            (shiftRightUB rm ((shiftAmount + 2 ^ 32 - 1) % 2 ^ 32)).bind fun c =>
              some ⟨op2, c &&& 1⟩
        else
          some ⟨(rm >>> 1) ||| (s.cpsr.C.toNat <<< 31), rm &&& 1⟩

/-- Embedding of `ARM7TDMI::executeAluInstructionOperation`
(src/ARM7TDMI.cpp lines 88–199).  None of the sixteen `switch` cases ends
in a `break`, so control entering at the matching case label falls through
every later case; the case labelled `c` therefore executes exactly when
`opcode ≤ c` (and no case executes for opcodes above 15). -/
def executeAluInstructionOperation (opcode rd rnVal op2 : Nat) (s : State) : State :=
  let s := if opcode ≤ 0 then -- AND
      let result := rnVal &&& op2
      let t := setRegister s rd result
      { t with zeroBit := (aluSetsZeroBit result).toNat
               signBit := (aluSetsSignBit result).toNat }
    else s
  let s := if opcode ≤ 1 then -- EOR
      let result := rnVal ^^^ op2
      let t := setRegister s rd result
      { t with zeroBit := (aluSetsZeroBit result).toNat
               signBit := (aluSetsSignBit result).toNat }
    else s
  let s := if opcode ≤ 2 then -- SUB
      let result := sub32 rnVal op2
      let t := setRegister s rd result
      { t with zeroBit := (aluSetsZeroBit result).toNat
               signBit := (aluSetsSignBit result).toNat
               carryBit := (aluSubtractSetsCarryBit rnVal op2).toNat
               overflowBit := (aluSubtractSetsOverflowBit rnVal op2 result).toNat }
    else s
  let s := if opcode ≤ 3 then -- RSB
      let result := sub32 op2 rnVal
      let t := setRegister s rd result
      { t with zeroBit := (aluSetsZeroBit result).toNat
               signBit := (aluSetsSignBit result).toNat
               carryBit := (aluSubtractSetsCarryBit op2 rnVal).toNat
               overflowBit := (aluSubtractSetsOverflowBit op2 rnVal result).toNat }
    else s
  let s := if opcode ≤ 4 then -- ADD
      let result := add32 rnVal op2
      let t := setRegister s rd result
      { t with zeroBit := (aluSetsZeroBit result).toNat
               signBit := (aluSetsSignBit result).toNat
               carryBit := (aluAddSetsCarryBit rnVal op2).toNat
               overflowBit := (aluAddSetsOverflowBit rnVal op2 result).toNat }
    else s
  let s := if opcode ≤ 5 then -- ADC
      let result := (rnVal + op2 + s.cpsr.C.toNat) % 2 ^ 32
      let t := setRegister s rd result
      { t with zeroBit := (aluSetsZeroBit result).toNat
               signBit := (aluSetsSignBit result).toNat
               carryBit := (aluAddWithCarrySetsCarryBit result).toNat
               overflowBit := (aluAddWithCarrySetsOverflowBit s rnVal op2 result).toNat }
    else s
  let s := if opcode ≤ 6 then -- SBC
      let result := (rnVal + not32 op2 + s.cpsr.C.toNat) % 2 ^ 32
      let t := setRegister s rd result
      { t with zeroBit := (aluSetsZeroBit result).toNat
               signBit := (aluSetsSignBit result).toNat
               carryBit := (aluSubWithCarrySetsCarryBit result).toNat
               overflowBit := (aluSubWithCarrySetsOverflowBit s rnVal op2 result).toNat }
    else s
  let s := if opcode ≤ 7 then -- RSC
      let result := (op2 + not32 rnVal + s.cpsr.C.toNat) % 2 ^ 32
      let t := setRegister s rd result
      { t with zeroBit := (aluSetsZeroBit result).toNat
               signBit := (aluSetsSignBit result).toNat
               carryBit := (aluSubWithCarrySetsCarryBit result).toNat
               overflowBit := (aluSubWithCarrySetsOverflowBit s op2 rnVal result).toNat }
    else s
  let s := if opcode ≤ 8 then -- TST
      let result := rnVal &&& op2
      { s with zeroBit := (aluSetsZeroBit result).toNat
               signBit := (aluSetsSignBit result).toNat }
    else s
  let s := if opcode ≤ 9 then -- TEQ
      let result := rnVal ^^^ op2
      { s with zeroBit := (aluSetsZeroBit result).toNat
               signBit := (aluSetsSignBit result).toNat }
    else s
  let s := if opcode ≤ 10 then -- CMP
      let result := sub32 rnVal op2
      { s with zeroBit := (aluSetsZeroBit result).toNat
               signBit := (aluSetsSignBit result).toNat
               carryBit := (aluSubtractSetsCarryBit rnVal op2).toNat
               overflowBit := (aluSubtractSetsOverflowBit rnVal op2 result).toNat }
    else s
  let s := if opcode ≤ 11 then -- CMN
      let result := add32 rnVal op2
      { s with zeroBit := (aluSetsZeroBit result).toNat
               signBit := (aluSetsSignBit result).toNat
               carryBit := (aluAddSetsCarryBit rnVal op2).toNat
               overflowBit := (aluAddSetsOverflowBit rnVal op2 result).toNat }
    else s
  let s := if opcode ≤ 12 then -- ORR
      let result := rnVal ||| op2
      let t := setRegister s rd result
      { t with zeroBit := (aluSetsZeroBit result).toNat
               signBit := (aluSetsSignBit result).toNat }
    else s
  let s := if opcode ≤ 13 then -- MOV
      let result := op2
      let t := setRegister s rd result
      { t with zeroBit := (aluSetsZeroBit result).toNat
               signBit := (aluSetsSignBit result).toNat }
    else s
  let s := if opcode ≤ 14 then -- BIC
      let result := rnVal &&& not32 op2
      let t := setRegister s rd result
      { t with zeroBit := (aluSetsZeroBit result).toNat
               signBit := (aluSetsSignBit result).toNat }
    else s
  let s := if opcode ≤ 15 then -- MVN
      let result := not32 op2
      let t := setRegister s rd result
      { t with zeroBit := (aluSetsZeroBit result).toNat
               signBit := (aluSetsSignBit result).toNat }
    else s
  s

/-- Embedding of `ARM7TDMI::executeAluInstruction` (src/ARM7TDMI.cpp lines
41–67).  Two details of the source are preserved exactly: the C operator
precedence on line 45 makes `instruction & 0x01E00000 >> 21` parse as
`instruction & (0x01E00000 >> 21)`, i.e. `instruction & 0xF`; and the flag
write-back on line 61 stores `overflowBit` into `cpsr.Z`.  The computed
`rnValue` is unused by the source (line 57 passes `getRegister(rn)`
directly), which the embedding also mirrors. -/
def executeAluInstruction (s : State) (instruction : Nat) : Option State :=
  (aluShift s instruction (instruction &&& 0x02000000 ≠ 0) (instruction &&& 0x00000010 ≠ 0)).bind
    fun shiftResult =>
      let s := { s with carryBit := shiftResult.carry }
      let rd := (instruction &&& 0x0000F000) >>> 12
      let rn := (instruction &&& 0x000F0000) >>> 16
      let opcode := instruction &&& (0x01E00000 >>> 21)
      let rnValue :=
        if rn ≠ PC_REGISTER then getRegister s rn
        else if ¬(instruction &&& 0x02000000 ≠ 0) ∧ (instruction &&& 0x00000010 ≠ 0) then
          (getRegister s rn + 12) % 2 ^ 32
        else (getRegister s rn + 8) % 2 ^ 32
      let _ := rnValue -- computed but not passed on by the source
      let op2 := shiftResult.op2
      let s := executeAluInstructionOperation opcode rd (getRegister s rn) op2 s
      if rd ≠ PC_REGISTER ∧ (instruction &&& 0x00100000 ≠ 0) then
        some { s with cpsr := { s.cpsr with C := s.carryBit % 2 == 1
                                            Z := s.overflowBit % 2 == 1
                                            N := s.signBit % 2 == 1
                                            V := s.overflowBit % 2 == 1 } }
      else if rd = PC_REGISTER ∧ (instruction &&& 0x00100000 ≠ 0) then
        some { s with cpsr := getModeSpsr s }
      else some s

/-- Embedding of `ARM7TDMI::UNDEF` (src/ARM7TDMI.cpp line 205):
returns a zero-initialized `Cycles` record. -/
def UNDEF (_instruction : Nat) : Cycles := ⟨0, 0, 0, 0⟩

/-- The value the `switch` in `ARM7TDMI::executeInstruction` scrutinizes
(src/ARM7TDMI.cpp line 236).  The literal `0x010E00000` (a leading zero on
`0x10E00000`) keeps only bits 21–23 and bit 28 of the instruction. -/
def executeInstructionSwitchValue (instruction : Nat) : Nat :=
  instruction &&& 0x010E00000

/-- Embedding of `ARM7TDMI::executeInstruction` (src/ARM7TDMI.cpp lines
234–256): every case of the `switch` immediately breaks, so the function
unconditionally returns a zero-initialized `Cycles` record and touches no
other state. -/
def executeInstruction (_instruction : Nat) : Cycles := ⟨0, 0, 0, 0⟩

/-- The result of one `ARM7TDMI::step` call (src/ARM7TDMI.cpp lines 19–29):
the successor state, the address handed to `bus->read` (the raw value of
`registers[PC_REGISTER]`), and whether the `cpsr.T` branch invoked
`executeInstruction`. -/
structure StepResult where
  state : State
  fetchedAddress : Nat
  executedInstruction : Bool

/-- Embedding of `ARM7TDMI::step` (src/ARM7TDMI.cpp lines 19–29).  The bus
collaborator is a pure read function.  When `cpsr.T` is set the fetched
word is passed to `executeInstruction` (whose `Cycles` result is discarded);
otherwise the empty Thumb branch runs.  Neither branch mutates the state. -/
def step (bus : Nat → Nat) (s : State) : StepResult :=
  let rawInstruction := bus (s.cells (Cell.shared PC_REGISTER))
  if s.cpsr.T then
    let _cycles := executeInstruction rawInstruction
    { state := s, fetchedAddress := s.cells (Cell.shared PC_REGISTER)
      executedInstruction := true }
  else
    { state := s, fetchedAddress := s.cells (Cell.shared PC_REGISTER)
      executedInstruction := false }

/-- Test state for the shift-amount extraction: register 1 holds 1 and the
carry flag is set. -/
def lslEncState : State :=
  let s := setRegister initState 1 1
  { s with cpsr := { s.cpsr with C := true } }

/-- Test state for the register-sourced shift amount: register 1 holds
`0x80000000` (bit 31 set), register 2 holds 0, and the carry flag is
clear. -/
def asrRegState : State := setRegister initState 1 0x80000000

/-! ## Helper lemmas -/

lemma getRegister_setFlags (t : State) (z w : Nat) (i : Nat) :
    getRegister { t with zeroBit := z, signBit := w } i = getRegister t i := rfl

lemma getRegister_setRegister_self (t : State) (i v : Nat) :
    getRegister (setRegister t i v) i = v := by
  simp only [getRegister, setRegister, writeCell]
  split_ifs <;> simp_all

lemma and_bit31_eq_zero_iff {x : Nat} (hx : x < 2 ^ 32) :
    x &&& 0x80000000 = 0 ↔ x < 2 ^ 31 := by
  rw [show (0x80000000 : Nat) = 2 ^ 31 from by norm_num, Nat.and_two_pow,
    Nat.testBit_to_div_mod]
  cases hdec : decide (x / 2 ^ 31 % 2 = 1) with
  | false =>
    have hd := of_decide_eq_false hdec
    simp only [Bool.toNat_false, zero_mul]
    exact iff_of_true trivial (by omega)
  | true =>
    have hd := of_decide_eq_true hdec
    simp only [Bool.toNat_true, one_mul]
    simp only [show (2 : Nat) ^ 31 = 2147483648 from by norm_num] at hd hx ⊢
    omega

lemma aluOp_cpsr (opcode rd rnVal op2 : Nat) (s : State) :
    (executeAluInstructionOperation opcode rd rnVal op2 s).cpsr = s.cpsr := by
  simp only [executeAluInstructionOperation, setRegister, apply_ite State.cpsr, ite_self]

lemma aluOp_SPSR_fiq (opcode rd rnVal op2 : Nat) (s : State) :
    (executeAluInstructionOperation opcode rd rnVal op2 s).SPSR_fiq = s.SPSR_fiq := by
  simp only [executeAluInstructionOperation, setRegister, apply_ite State.SPSR_fiq, ite_self]

lemma aluOp_SPSR_svc (opcode rd rnVal op2 : Nat) (s : State) :
    (executeAluInstructionOperation opcode rd rnVal op2 s).SPSR_svc = s.SPSR_svc := by
  simp only [executeAluInstructionOperation, setRegister, apply_ite State.SPSR_svc, ite_self]

lemma aluOp_SPSR_abt (opcode rd rnVal op2 : Nat) (s : State) :
    (executeAluInstructionOperation opcode rd rnVal op2 s).SPSR_abt = s.SPSR_abt := by
  simp only [executeAluInstructionOperation, setRegister, apply_ite State.SPSR_abt, ite_self]

lemma aluOp_SPSR_irq (opcode rd rnVal op2 : Nat) (s : State) :
    (executeAluInstructionOperation opcode rd rnVal op2 s).SPSR_irq = s.SPSR_irq := by
  simp only [executeAluInstructionOperation, setRegister, apply_ite State.SPSR_irq, ite_self]

lemma aluOp_SPSR_und (opcode rd rnVal op2 : Nat) (s : State) :
    (executeAluInstructionOperation opcode rd rnVal op2 s).SPSR_und = s.SPSR_und := by
  simp only [executeAluInstructionOperation, setRegister, apply_ite State.SPSR_und, ite_self]

lemma getModeSpsr_aluOp (opcode rd rnVal op2 : Nat) (s : State) :
    getModeSpsr (executeAluInstructionOperation opcode rd rnVal op2 s) = getModeSpsr s := by
  unfold getModeSpsr
  rw [aluOp_cpsr, aluOp_SPSR_fiq, aluOp_SPSR_svc, aluOp_SPSR_abt, aluOp_SPSR_irq,
    aluOp_SPSR_und]

/-! ## Claim theorems -/

/-- C1: the claim says executing CMP with operand1 = operand2 = 5 sets
Z=1, N=0, C=1, V=0 and writes no register.  The code disagrees: because no
`switch` case in `executeAluInstructionOperation` ends in `break`, control
falls through from the CMP case to every later case, so the destination
register (initially 0) ends up holding `~5 = 0xFFFFFFFA` and the final
flag variables are `zeroBit = 0`, `signBit = 1` (from MVN) and
`carryBit = 0` (from CMN's add-family carry of 5+5). -/
theorem cmp_5_5_falls_through_to_mvn :
    getRegister (executeAluInstructionOperation 10 0 5 5 initState) 0 = 0xFFFFFFFA ∧
    (executeAluInstructionOperation 10 0 5 5 initState).zeroBit = 0 ∧
    (executeAluInstructionOperation 10 0 5 5 initState).signBit = 1 ∧
    (executeAluInstructionOperation 10 0 5 5 initState).carryBit = 0 ∧
    (executeAluInstructionOperation 10 0 5 5 initState).overflowBit = 0 ∧
    getRegister initState 0 = 0 :=
  ⟨rfl, rfl, rfl, rfl, rfl, rfl⟩

/-- State in which register 1 holds `0x7FFFFFFF` (Supervisor mode of the
freshly constructed CPU). -/
def addTestState : State := setRegister initState 1 0x7FFFFFFF

/-- C2: the claim says ADD with operand1 = 0x7FFFFFFF, operand2 = 1,
flag-update requested and destination ≠ PC stores `0x80000000` and sets
Z=0, N=1, C=0, V=1.  Instruction `0x02910104` reaches
`executeAluInstructionOperation` with exactly those operands (immediate
operand `4 ror 2 = 1`, `Rn = r1 = 0x7FFFFFFF`, opcode nibble 4, S bit set,
`rd = 0`), but the fall-through ends at MVN so `r0 = ~1 = 0xFFFFFFFE`, and
the write-back `cpsr.Z = overflowBit` (src/ARM7TDMI.cpp line 61) sets Z=1
(the overflow of the CMN case); only N, C and V match the claim. -/
theorem add_7fffffff_1_diverges :
    (executeAluInstruction addTestState 0x02910104).map (fun t => getRegister t 0) =
      some 0xFFFFFFFE ∧
    (executeAluInstruction addTestState 0x02910104).map (fun t => t.cpsr.Z) = some true ∧
    (executeAluInstruction addTestState 0x02910104).map (fun t => t.cpsr.N) = some true ∧
    (executeAluInstruction addTestState 0x02910104).map (fun t => t.cpsr.C) = some false ∧
    (executeAluInstruction addTestState 0x02910104).map (fun t => t.cpsr.V) = some true :=
  ⟨rfl, rfl, rfl, rfl, rfl⟩

/-- C3: in the ARM state established at construction (`cpsr.T = 0`), one
`step` call reads the bus at `registers[PC_REGISTER]` and leaves the whole
CPU state (registers, banked cells, status register) unchanged;
`executeInstruction` is invoked only when `cpsr.T` is 1. -/
theorem step_with_t_clear_changes_nothing (bus : Nat → Nat) (s : State) :
    (s.cpsr.T = false →
      step bus s = ⟨s, s.cells (Cell.shared PC_REGISTER), false⟩) ∧
    ((step bus s).executedInstruction = true → s.cpsr.T = true) := by
  constructor
  · intro h
    simp [step, h]
  · intro h
    by_cases hT : s.cpsr.T
    · exact hT
    · simp only [Bool.not_eq_true] at hT
      simp [step, hT] at h

/-- Witness for C3 at the constructed state and a zero bus. -/
theorem step_with_t_clear_changes_nothing_witness :
    step (fun _ => 0) initState = ⟨initState, 0, false⟩ :=
  (step_with_t_clear_changes_nothing (fun _ => 0) initState).1 rfl

/-- C4: the claim speaks of the register-operand immediate-shift-amount-0
encodings.  Because of C operator precedence, line 300 of src/ARM7TDMI.cpp
(`shiftAmount = instruction & 0x00000F80 >> 7U`) computes
`instruction & 0x1F` instead of the amount field in bits 7–11: for the LSL
encoding `0x00000001` (shift-amount field 0, Rm = 1) with `r1 = 1` and the
carry flag set, the shifter returns operand `2` (the value shifted left by
the Rm index) and carry-out 0 — not the unchanged value 1 with unchanged
carry 1 that the claim requires. -/
theorem lsl_amount_zero_encoding_misdecoded :
    aluShift lslEncState 0x00000001 false false = some ⟨2, 0⟩ ∧
    getRegister lslEncState 1 = 1 ∧
    lslEncState.cpsr.C = true :=
  ⟨rfl, rfl, rfl⟩

/-- C7: the claim says a register-sourced shift amount of 0 leaves value
and carry unchanged for every shift type.  For the ASR register-shift
encoding `0x00000251` (shift amount from `r2 = 0`, `Rm = r1 = 0x80000000`)
with the carry flag clear, the code takes the generic ASR branch and sets
the carry-out to bit 31 of the value, i.e. 1 ≠ 0; the produced value does
equal the unshifted operand. -/
theorem asr_register_amount_zero_sets_carry_to_bit31 :
    aluShift asrRegState 0x00000251 false true = some ⟨0x80000000, 1⟩ ∧
    getRegister asrRegState 2 = 0 ∧
    asrRegState.cpsr.C = false :=
  ⟨rfl, rfl, rfl⟩

/-- C6: writes through logical register 13 touch only the storage cell of
the active mode: after writing `v2` to r13 in Supervisor mode, writing `v1`
to r13 in IRQ mode, and switching back to Supervisor mode, reading r13
returns `v2` — the value last written in Supervisor mode — for every pair
of written values and every starting state. -/
theorem banked_r13_distinct_storage (s : State) (v1 v2 : Nat) :
    getRegister
      (switchToMode
        (setRegister (switchToMode (setRegister (switchToMode s SUPERVISOR) 13 v2) IRQ) 13 v1)
        SUPERVISOR) 13 = v2 := by
  simp [getRegister, setRegister, switchToMode, writeCell, svcRegisters, irqRegisters,
    USER, FIQ, IRQ, SUPERVISOR]

/-- C10: `executeInstruction` always returns the zero-initialized `Cycles`
record and touches no register or status field (it is a pure function of
the instruction word); the scrutinized value `instruction & 0x010E00000`
has its low 21 bits clear, so the case labels 0x1–0xF are unreachable —
only the label 0x0 can ever match. -/
theorem execute_instruction_is_inert (instruction : Nat) :
    executeInstruction instruction = ⟨0, 0, 0, 0⟩ ∧
    (executeInstructionSwitchValue instruction = 0 ∨
      16 ≤ executeInstructionSwitchValue instruction) := by
  refine ⟨rfl, ?_⟩
  have h15 : executeInstructionSwitchValue instruction &&& 15 = 0 := by
    unfold executeInstructionSwitchValue
    rw [Nat.and_assoc, show (0x010E00000 : Nat) &&& 15 = 0 from by decide, Nat.and_zero]
  have hsmall : ∀ w < 16, w &&& 15 = 0 → w = 0 := by decide
  rcases Nat.lt_or_ge (executeInstructionSwitchValue instruction) 16 with h | h
  · exact Or.inl (hsmall _ h h15)
  · exact Or.inr h

/-- C5: for all 32-bit pairs, the add-family carry predicate holds iff the
sum leaves the unsigned 32-bit range; the add-family overflow predicate
holds iff the signed sum leaves the two's-complement range; the
subtract-family carry predicate holds iff no borrow occurs (minuend ≥
subtrahend unsigned); the subtract-family overflow predicate holds iff the
signed difference leaves the range; the zero predicate holds iff the
32-bit result is 0; and the sign predicate equals bit 31 of the result. -/
theorem alu_flag_predicates_correct (a b r : Nat)
    (ha : a < 2 ^ 32) (hb : b < 2 ^ 32) (hr : r < 2 ^ 32) :
    (aluAddSetsCarryBit a b = true ↔ 2 ^ 32 ≤ a + b) ∧
    (aluAddSetsOverflowBit a b (add32 a b) = true ↔
      ¬(-(2 ^ 31 : Int) ≤ toSigned a + toSigned b ∧ toSigned a + toSigned b < 2 ^ 31)) ∧
    (aluSubtractSetsCarryBit a b = true ↔ b ≤ a) ∧
    (aluSubtractSetsOverflowBit a b (sub32 a b) = true ↔
      ¬(-(2 ^ 31 : Int) ≤ toSigned a - toSigned b ∧ toSigned a - toSigned b < 2 ^ 31)) ∧
    (aluSetsZeroBit r = true ↔ r = 0) ∧
    (aluSetsSignBit r = true ↔ r.testBit 31 = true) := by
  have hadd : add32 a b < 2 ^ 32 := Nat.mod_lt _ (by norm_num)
  have hsub : sub32 a b < 2 ^ 32 := Nat.mod_lt _ (by norm_num)
  refine ⟨?_, ?_, ?_, ?_, ?_, ?_⟩
  · simp only [aluAddSetsCarryBit, decide_eq_true_eq]
    omega
  · simp only [aluAddSetsOverflowBit, Bool.or_eq_true, Bool.and_eq_true, bne_iff_ne,
      beq_iff_eq, ne_eq]
    rw [and_bit31_eq_zero_iff ha, and_bit31_eq_zero_iff hb, and_bit31_eq_zero_iff hadd]
    unfold toSigned add32
    split_ifs <;> omega
  · simp only [aluSubtractSetsCarryBit, Bool.not_eq_true', decide_eq_false_iff_not,
      Nat.not_lt]
  · simp only [aluSubtractSetsOverflowBit, Bool.or_eq_true, Bool.and_eq_true, bne_iff_ne,
      beq_iff_eq, ne_eq]
    rw [and_bit31_eq_zero_iff ha, and_bit31_eq_zero_iff hb, and_bit31_eq_zero_iff hsub]
    unfold toSigned sub32
    split_ifs <;> omega
  · simp only [aluSetsZeroBit, beq_iff_eq]
  · simp only [aluSetsSignBit, bne_iff_ne, ne_eq, Nat.testBit_to_div_mod,
      Nat.shiftRight_eq_div_pow, decide_eq_true_eq]
    omega

/-- Witness for C5: the zero predicate at the concrete result 0, through the
predicate-correctness theorem at a = b = 5. -/
theorem alu_flag_predicates_correct_witness : aluSetsZeroBit 0 = true :=
  (alu_flag_predicates_correct 5 5 0 (by norm_num) (by norm_num)
    (by norm_num)).2.2.2.2.1.mpr rfl

/-- C9: because every `switch` case of `executeAluInstructionOperation`
falls through, every opcode 0–15 ends in the MVN case: the destination
register ends up holding the bitwise NOT of operand2 and the zero/sign flag
variables are those computed from NOT operand2, for all operand values. -/
theorem alu_operation_always_ends_at_mvn (opcode rd rnVal op2 : Nat) (s : State)
    (hop : opcode ≤ 15) (hrd : rd < 16) (hrn : rnVal < 2 ^ 32) (hop2 : op2 < 2 ^ 32) :
    getRegister (executeAluInstructionOperation opcode rd rnVal op2 s) rd = not32 op2 ∧
    (executeAluInstructionOperation opcode rd rnVal op2 s).zeroBit =
      (aluSetsZeroBit (not32 op2)).toNat ∧
    (executeAluInstructionOperation opcode rd rnVal op2 s).signBit =
      (aluSetsSignBit (not32 op2)).toNat := by
  simp only [executeAluInstructionOperation]
  rw [if_pos hop]
  exact ⟨(getRegister_setFlags _ _ _ _).trans (getRegister_setRegister_self _ _ _), rfl, rfl⟩

/-- Witness for C9 at opcode 0 (AND) with zero operands in the constructed
state: the destination nevertheless holds `~0 = 0xFFFFFFFF`. -/
theorem alu_operation_always_ends_at_mvn_witness :
    getRegister (executeAluInstructionOperation 0 0 0 0 initState) 0 = 0xFFFFFFFF := by
  have h := alu_operation_always_ends_at_mvn 0 0 0 0 initState (by norm_num) (by norm_num)
    (by norm_num) (by norm_num)
  simpa [not32] using h.1

/-- C8: when a flag-setting data-processing instruction (S bit set) targets
the program counter, `executeAluInstruction` replaces the whole `cpsr` with
`getModeSpsr` of the pre-instruction state instead of performing an
ordinary flag update; and since `getModeSpsr` returns the current `cpsr`
itself for the User and System modes (which have no saved copy), in those
modes the replacement leaves the status register unchanged. -/
theorem flag_setting_pc_destination_restores_spsr (instruction : Nat) (s s' : State)
    (h : executeAluInstruction s instruction = some s')
    (hrd : (instruction &&& 0x0000F000) >>> 12 = PC_REGISTER)
    (hS : instruction &&& 0x00100000 ≠ 0) :
    s'.cpsr = getModeSpsr s ∧
    ((s.cpsr.Mode = USER ∨ s.cpsr.Mode = SYSTEM) → s'.cpsr = s.cpsr) := by
  simp only [executeAluInstruction] at h
  cases haluShift : aluShift s instruction
      (decide (instruction &&& 0x02000000 ≠ 0)) (decide (instruction &&& 0x00000010 ≠ 0)) with
  | none =>
    rw [haluShift] at h
    simp at h
  | some res =>
    rw [haluShift] at h
    simp only [Option.some_bind] at h
    rw [hrd] at h
    rw [if_neg (fun hc => hc.1 rfl)] at h
    rw [if_pos ⟨rfl, hS⟩] at h
    have h2 := Option.some.inj h
    subst h2
    refine ⟨(getModeSpsr_aluOp _ _ _ _ _).trans rfl, fun hm => ?_⟩
    refine ((getModeSpsr_aluOp _ _ _ _ _).trans (rfl :
      getModeSpsr { s with carryBit := res.carry } = getModeSpsr s)).trans ?_
    unfold getModeSpsr
    rcases hm with hm | hm <;> rw [hm] <;>
      simp [USER, FIQ, IRQ, SUPERVISOR, ABORT, UNDEFINED, SYSTEM]

/-- Witness for C8: instruction `0x0210F000` (immediate operand, S bit set,
destination register 15) executed from the constructed state replaces the
status register with the Supervisor-mode SPSR. -/
theorem flag_setting_pc_destination_restores_spsr_witness :
    (executeAluInstruction initState 0x0210F000).map State.cpsr =
      some (getModeSpsr initState) := by
  have hsome : (executeAluInstruction initState 0x0210F000).isSome = true := rfl
  obtain ⟨s1, hs1⟩ := Option.isSome_iff_exists.mp hsome
  have h := flag_setting_pc_destination_restores_spsr 0x0210F000 initState s1 hs1
    (by decide) (by decide)
  rw [hs1]
  exact congrArg some h.1

end ARM7TDMI
